import Mathlib

/-!
Shallow embedding of `onnxruntime/src/session.rs` from the `onnxruntime-rs`
crate, together with proofs about its session-management logic.

The Rust module wraps a native C inference engine.  Every call into the
native library is modelled by an *oracle*: the embedding takes the values
the native call would produce (status pointers, handles, counts,
dimensions) as explicit arguments, and returns — besides the Rust-level
result — an explicit trace of the native calls the claims reason about
(`Run`, `CreateSession`, the `Release*` calls, `SetIntraOpNumThreads`).

Machine-integer conventions: Rust `usize`/`u32` values are `Nat`, `i64`
and `i32` values are `Int`; the numeric casts that occur in the source
(`i64 as u32`, `i64 as usize`, `i16 as i32`) are modelled by explicit
wrap-around functions with `% 2^w`.
-/

/-- A raw C pointer: either null or some address. -/
inductive Ptr where
  | null : Ptr
  | addr : Nat → Ptr
deriving DecidableEq, Repr

/-- A native `OrtStatusPtr`.  A null status (`none`) signals success; a
non-null status carries an error message that `status_to_result` reads
back through the native `GetErrorMessage`.  We model the status directly
as the optional message. -/
abbrev OrtStatus := Option String

/-- Modelled from the spec: `OrtApiError` lives in the crate's `error.rs`,
which is not part of the sources under verification; the spec describes the
module as "converting an unstructured status/error protocol into a typed
result model".  `session.rs` constructs the variant `Msg` explicitly
(`OrtApiError::Msg("No nodes in model".to_owned())`). -/
inductive OrtApiError where
  | Msg : String → OrtApiError
deriving DecidableEq, Repr

/-- Element types of tensors (`TensorElementDataType` in the crate's
`lib.rs`, not under verification).  Only the `Undefined`/defined
distinction matters to `session.rs`; a few representative defined
variants are kept. -/
inductive TensorElementDataType where
  | Undefined
  | Float
  | Uint8
  | Int64
  | Double
deriving DecidableEq, Repr

/-- `AllocatorType` from the crate's `lib.rs` (not under verification):
the two allocator kinds the builder can select. -/
inductive AllocatorType where
  | Device
  | Arena
deriving DecidableEq, Repr

/-- `MemType` from the crate's `lib.rs` (not under verification). -/
inductive MemType where
  | CPUInput
  | CPUOutput
  | Default
deriving DecidableEq, Repr

/-- `MemoryInfo` from the crate's `memory.rs` (not under verification):
a wrapper around a native `OrtMemoryInfo` handle. -/
structure MemoryInfo where
  ptr : Ptr
deriving DecidableEq, Repr

/-- `NonMatchingDimensionsError` from the crate's `error.rs` (not under
verification), with the fields `session.rs` fills in:
`InputsCount` carries the two counts and both shape lists, and
`InputsLength` carries both shape lists. -/
inductive NonMatchingDimensionsError where
  | InputsCount
      (inference_input_count : Nat)
      (model_input_count : Nat)
      (inference_input : List (List Nat))
      (model_input : List (List (Option Nat)))
  | InputsLength
      (inference_input : List (List Nat))
      (model_input : List (List (Option Nat)))
deriving DecidableEq, Repr

/-- The `OrtError` variants used by `session.rs` (the enum itself lives in
`error.rs`, not under verification; the variants and their payloads are
exactly those `session.rs` constructs through `map_err` and the two
pointer assertions). -/
inductive OrtError where
  | SessionOptions : OrtApiError → OrtError
  | Session : OrtApiError → OrtError
  | Allocator : OrtApiError → OrtError
  | InOutCount : OrtApiError → OrtError
  | InputName : OrtApiError → OrtError
  | GetTypeInfo : OrtApiError → OrtError
  | CastTypeInfoToTensorInfo : OrtApiError → OrtError
  | TensorElementType : OrtApiError → OrtError
  | UndefinedTensorElementType : OrtError
  | GetDimensionsCount : OrtApiError → OrtError
  | GetDimensions : OrtApiError → OrtError
  | GetTensorTypeAndShape : OrtApiError → OrtError
  | InvalidDimensions : OrtError
  | NonMatchingDimensions : NonMatchingDimensionsError → OrtError
  | Run : OrtApiError → OrtError
  | CreateTensorWithData : OrtApiError → OrtError
  | TensorExtraction : OrtApiError → OrtError
  | FileDoesNotExists : (filename : String) → OrtError
  | PointerShouldBeNull : String → OrtError
  | PointerShouldNotBeNull : String → OrtError
  | CreateMemoryInfo : OrtApiError → OrtError
deriving DecidableEq, Repr

/-- Modelled from the spec: `status_to_result` from the crate's `error.rs`
(not under verification).  Per the spec's error-translation description, a
null native status is success and a non-null status is converted into a
typed error carrying the status message. -/
def status_to_result (status : OrtStatus) : Except OrtApiError Unit :=
  match status with
  | none => Except.ok ()
  | some msg => Except.error (OrtApiError.Msg msg)

/-- Modelled from the spec: `assert_null_pointer` from the crate's
`error.rs` (not under verification): fails with `PointerShouldBeNull`
when the pointer is non-null.  In `session.rs` it is applied to status
pointers, so it takes an `OrtStatus` here. -/
def assert_null_pointer (status : OrtStatus) (name : String) :
    Except OrtError Unit :=
  match status with
  | none => Except.ok ()
  | some _ => Except.error (OrtError.PointerShouldBeNull name)

/-- Modelled from the spec: `assert_not_null_pointer` from the crate's
`error.rs` (not under verification): fails with `PointerShouldNotBeNull`
when the pointer is null. -/
def assert_not_null_pointer (ptr : Ptr) (name : String) :
    Except OrtError Unit :=
  match ptr with
  | Ptr.null => Except.error (OrtError.PointerShouldNotBeNull name)
  | Ptr.addr _ => Except.ok ()

/-- Rust `d as u32` on an `i64` value: wrap-around into `[0, 2^32)`. -/
def i64_as_u32 (d : Int) : Nat := (d % (2 : Int) ^ 32).toNat

/-- Rust `n as usize` on an `i64` value (64-bit target): wrap-around into
`[0, 2^64)`. -/
def i64_as_usize (n : Int) : Nat := (n % (2 : Int) ^ 64).toNat

/-- Rust `n as i32` on an `i16` value: the two's-complement wrap of the
value into the `i32` range (on the `i16` range this is the identity —
the cast sign-extends). -/
def i16_as_i32 (n : Int) : Int := (n + 2 ^ 31) % 2 ^ 32 - 2 ^ 31

/-- The native calls whose occurrence the claims reason about; each
embedded operation returns the list of such calls it performs, in order. -/
inductive NativeCall where
  | CreateSession (session_options_ptr : Ptr)
  | CreateSessionFromArray (session_options_ptr : Ptr)
  | SetIntraOpNumThreads (session_options_ptr : Ptr) (num_threads : Int)
  | Run (session_ptr : Ptr)
  | ReleaseSession (session_ptr : Ptr)
  | ReleaseSessionOptions (session_options_ptr : Ptr)
deriving DecidableEq, Repr

/-- `Input` struct from `session.rs`: name, element type, and the shape
with `none` for dynamic dimensions (`Vec<Option<u32>>` in Rust; the `u32`
values are `Nat` here). -/
structure Input where
  name : String
  input_type : TensorElementDataType
  dimensions : List (Option Nat)
deriving DecidableEq, Repr

/-- `Output` struct from `session.rs`, same layout as `Input`. -/
structure Output where
  name : String
  output_type : TensorElementDataType
  dimensions : List (Option Nat)
deriving DecidableEq, Repr

/-- `Session` struct from `session.rs` (the `env: PhantomData` field is
zero-sized and omitted). -/
structure Session where
  session_ptr : Ptr
  allocator_ptr : Ptr
  memory_info : MemoryInfo
  inputs : List Input
  outputs : List Output
deriving DecidableEq, Repr

/-- `SessionBuilder` struct from `session.rs`.  The `env: &'a Environment`
reference is modelled by the identity of the environment it points to. -/
structure SessionBuilder where
  env : Nat
  session_options_ptr : Ptr
  allocator : AllocatorType
  memory_type : MemType
deriving DecidableEq, Repr

/-- `Session::validate_input_shapes` from `session.rs`.  The input arrays
enter the function only through `.shape()`, so the embedding takes the
list of shapes.  The three checks, their order, and the exact error
payloads (including the hard-coded `0` count fields of `InputsCount`)
follow the source. -/
def Session.validate_input_shapes (s : Session) (input_shapes : List (List Nat)) :
    Except OrtError Unit :=
  if input_shapes.length ≠ s.inputs.length then
    Except.error (OrtError.NonMatchingDimensions
      (NonMatchingDimensionsError.InputsCount 0 0
        input_shapes
        (s.inputs.map (fun input => input.dimensions))))
  else
    let inputs_different_length :=
      (input_shapes.zip s.inputs).any
        (fun lr => lr.1.length ≠ lr.2.dimensions.length)
    if inputs_different_length then
      Except.error (OrtError.NonMatchingDimensions
        (NonMatchingDimensionsError.InputsLength
          input_shapes
          (s.inputs.map (fun input => input.dimensions))))
    else
      let inputs_different_shape :=
        (input_shapes.zip s.inputs).any (fun lr =>
          (lr.1.zip lr.2.dimensions).any (fun p =>
            match p.2 with
            | some r3 => r3 ≠ p.1
            | none => false))
      if inputs_different_shape then
        Except.error (OrtError.NonMatchingDimensions
          (NonMatchingDimensionsError.InputsLength
            input_shapes
            (s.inputs.map (fun input => input.dimensions))))
      else
        Except.ok ()

/-- Spec-side predicate (from the words of the claims, for comparison with
the code's `validate_input_shapes`): the number of input arrays equals the
model's input count, each array's rank equals the corresponding model
input's rank, and every array dimension equals the corresponding model
dimension whenever that dimension is fixed (`some`); a dynamic dimension
(`none`) matches any size. -/
def matchesModel (inputs : List Input) (shapes : List (List Nat)) : Bool :=
  shapes.length = inputs.length &&
  (shapes.zip inputs).all (fun p =>
    p.1.length = p.2.dimensions.length &&
    (p.1.zip p.2.dimensions).all (fun q =>
      match q.2 with
      | some d => q.1 = d
      | none => true))

/-- Rust's `collect::<Result<Vec<_>>>()`: succeed with the list of values
when every element succeeds, otherwise stop at the first error. -/
def collectResult {ε α : Type} : List (Except ε α) → Except ε (List α)
  | [] => Except.ok []
  | x :: xs =>
    match x with
    | Except.error e => Except.error e
    | Except.ok a =>
      match collectResult xs with
      | Except.error e => Except.error e
      | Except.ok as1 => Except.ok (a :: as1)

/-- Oracle for one native `OrtTensorTypeAndShapeInfo` handle: the status
of `GetDimensionsCount`, the dimension count it writes, the status of
`GetDimensions`, and the `i64` dimensions it writes (a list of length
`num_dims`). -/
structure TensorInfo where
  dims_count_status : OrtStatus
  num_dims : Nat
  dims_status : OrtStatus
  node_dims : List Int
deriving Repr

/-- `get_tensor_dimensions` from `session.rs`: query the dimension count,
reject a zero count with `InvalidDimensions`, then read the dimensions. -/
def get_tensor_dimensions (info : TensorInfo) : Except OrtError (List Int) :=
  match status_to_result info.dims_count_status with
  | Except.error e => Except.error (OrtError.GetDimensionsCount e)
  | Except.ok () =>
    if info.num_dims = 0 then
      Except.error OrtError.InvalidDimensions
    else
      match status_to_result info.dims_status with
      | Except.error e => Except.error (OrtError.GetDimensions e)
      | Except.ok () => Except.ok info.node_dims

/-- Oracle for `dangerous::extract_io` on one input or output index:
the statuses of `SessionGetInputTypeInfo`/`SessionGetOutputTypeInfo`,
the type-info pointer it writes, the status of `CastTypeInfoToTensorInfo`,
the tensor-info pointer it writes, the status and value of
`GetTensorElementType`, and the shape information. -/
structure TypeInfoOracle where
  typeinfo_status : OrtStatus
  typeinfo_ptr : Ptr
  cast_status : OrtStatus
  tensor_info_ptr : Ptr
  elem_type_status : OrtStatus
  elem_type : TensorElementDataType
  tensor_info : TensorInfo
deriving Repr

/-- `dangerous::extract_io` from `session.rs`: fetch the type info, cast
it to tensor info, read the element type (rejecting `Undefined`), read the
dimensions, and encode each native `i64` dimension `d` as `none` when
`d = -1` and `some (d as u32)` otherwise. -/
def extract_io (o : TypeInfoOracle) :
    Except OrtError (TensorElementDataType × List (Option Nat)) :=
  match status_to_result o.typeinfo_status with
  | Except.error e => Except.error (OrtError.GetTypeInfo e)
  | Except.ok () =>
    match assert_not_null_pointer o.typeinfo_ptr "TypeInfo" with
    | Except.error e => Except.error e
    | Except.ok () =>
      match status_to_result o.cast_status with
      | Except.error e => Except.error (OrtError.CastTypeInfoToTensorInfo e)
      | Except.ok () =>
        match assert_not_null_pointer o.tensor_info_ptr "TensorInfo" with
        | Except.error e => Except.error e
        | Except.ok () =>
          match status_to_result o.elem_type_status with
          | Except.error e => Except.error (OrtError.TensorElementType e)
          | Except.ok () =>
            if o.elem_type = TensorElementDataType.Undefined then
              Except.error OrtError.UndefinedTensorElementType
            else
              match get_tensor_dimensions o.tensor_info with
              | Except.error e => Except.error e
              | Except.ok node_dims =>
                Except.ok (o.elem_type,
                  node_dims.map (fun d =>
                    if d = -1 then none else some (i64_as_u32 d)))

/-- Oracle for `dangerous::extract_io_count` (shared by
`extract_inputs_count` and `extract_outputs_count`): the native status and
the count the native call writes. -/
structure IoCountOracle where
  status : OrtStatus
  count : Nat
deriving Repr

/-- `dangerous::extract_io_count` from `session.rs`: translate a non-null
status into `InOutCount`, then reject a zero node count with the message
`"No nodes in model"`. -/
def extract_io_count (o : IoCountOracle) : Except OrtError Nat :=
  match status_to_result o.status with
  | Except.error e => Except.error (OrtError.InOutCount e)
  | Except.ok () =>
    match assert_null_pointer o.status "SessionStatus" with
    | Except.error e => Except.error e
    | Except.ok () =>
      if o.count = 0 then
        Except.error (OrtError.InOutCount (OrtApiError.Msg "No nodes in model"))
      else
        Except.ok o.count

/-- Oracle for `dangerous::extract_input` / `dangerous::extract_output` on
one index: the result of the `extract_io_name` native call chain (its
internal calls and error mapping are in `session.rs` but irrelevant to the
claims, so it is oracled at the level of its `Result<String>` value), and
the `extract_io` oracle. -/
structure IoExtractOracle where
  name_result : Except OrtError String
  typeinfo : TypeInfoOracle
deriving Repr

/-- `dangerous::extract_input` from `session.rs`. -/
def extract_input (o : IoExtractOracle) : Except OrtError Input :=
  match o.name_result with
  | Except.error e => Except.error e
  | Except.ok input_name =>
    match extract_io o.typeinfo with
    | Except.error e => Except.error e
    | Except.ok td => Except.ok ⟨input_name, td.1, td.2⟩

/-- `dangerous::extract_output` from `session.rs`. -/
def extract_output (o : IoExtractOracle) : Except OrtError Output :=
  match o.name_result with
  | Except.error e => Except.error e
  | Except.ok output_name =>
    match extract_io o.typeinfo with
    | Except.error e => Except.error e
    | Except.ok td => Except.ok ⟨output_name, td.1, td.2⟩

/-- Oracle for the session-creation sequence shared by
`with_model_from_file` and `with_model_from_memory`: the results of
`CreateSession`/`CreateSessionFromArray`,
`GetAllocatorWithDefaultOptions`, `MemoryInfo::new` (in `memory.rs`, not
under verification, so oracled at its `Result` value), the two node
counts, and the per-index input/output extraction oracles. -/
structure LoadOracle where
  create_status : OrtStatus
  session_ptr : Ptr
  allocator_status : OrtStatus
  allocator_ptr : Ptr
  memory_info_result : Except OrtError MemoryInfo
  input_count : IoCountOracle
  output_count : IoCountOracle
  input_at : Nat → IoExtractOracle
  output_at : Nat → IoExtractOracle

/-- The common tail of `with_model_from_file` and
`with_model_from_memory` (the source duplicates this block verbatim after
the respective `CreateSession`* call): check the creation status and
pointers, fetch the allocator and memory info, then extract the input and
output metadata. -/
def commit_session (o : LoadOracle) : Except OrtError Session :=
  match status_to_result o.create_status with
  | Except.error e => Except.error (OrtError.Session e)
  | Except.ok () =>
    match assert_null_pointer o.create_status "SessionStatus" with
    | Except.error e => Except.error e
    | Except.ok () =>
      match assert_not_null_pointer o.session_ptr "Session" with
      | Except.error e => Except.error e
      | Except.ok () =>
        match status_to_result o.allocator_status with
        | Except.error e => Except.error (OrtError.Allocator e)
        | Except.ok () =>
          match assert_null_pointer o.allocator_status "SessionStatus" with
          | Except.error e => Except.error e
          | Except.ok () =>
            match assert_not_null_pointer o.allocator_ptr "Allocator" with
            | Except.error e => Except.error e
            | Except.ok () =>
              match o.memory_info_result with
              | Except.error e => Except.error e
              | Except.ok memory_info =>
                match extract_io_count o.input_count with
                | Except.error e => Except.error e
                | Except.ok num_input_nodes =>
                  match extract_io_count o.output_count with
                  | Except.error e => Except.error e
                  | Except.ok num_output_nodes =>
                    match collectResult ((List.range num_input_nodes).map
                        (fun i => extract_input (o.input_at i))) with
                    | Except.error e => Except.error e
                    | Except.ok inputs =>
                      match collectResult ((List.range num_output_nodes).map
                          (fun i => extract_output (o.output_at i))) with
                      | Except.error e => Except.error e
                      | Except.ok outputs =>
                        Except.ok ⟨o.session_ptr, o.allocator_ptr,
                          memory_info, inputs, outputs⟩

/-- `SessionBuilder::with_model_from_file` from `session.rs`.  The
filesystem query `model_filepath.exists()` is the oracle `fileExists`; a
missing file is rejected before any native call (the returned trace is
the list of traced native calls the body performs). -/
def SessionBuilder.with_model_from_file (b : SessionBuilder) (path : String)
    (fileExists : Bool) (o : LoadOracle) :
    List NativeCall × Except OrtError Session :=
  if !fileExists then
    ([], Except.error (OrtError.FileDoesNotExists path))
  else
    ([NativeCall.CreateSession b.session_options_ptr], commit_session o)

/-- `SessionBuilder::with_model_from_memory` from `session.rs` (via
`with_model_from_memory_monomorphized`): no existence check, the bytes go
straight to `CreateSessionFromArray`. -/
def SessionBuilder.with_model_from_memory (b : SessionBuilder)
    (o : LoadOracle) : List NativeCall × Except OrtError Session :=
  ([NativeCall.CreateSessionFromArray b.session_options_ptr], commit_session o)

/-- The tensor produced for one output by `OrtOwnedTensorExtractor`
(`tensor/ort_owned_tensor.rs`, not under verification): only its
dimensions matter here. -/
structure OrtOwnedTensor where
  dims : List Nat
deriving DecidableEq, Repr

/-- Oracle for the processing of one output tensor in `Session::run`:
the status of `GetTensorTypeAndShape`, the shape information, and the
result of `OrtOwnedTensorExtractor::extract` (in `ort_owned_tensor.rs`,
not under verification, so oracled at its `Result` value — success is
`Except.ok ()` and the tensor is rebuilt from the dimensions). -/
structure OutputOracle where
  type_shape_status : OrtStatus
  tensor_info : TensorInfo
  extract_result : Except OrtError Unit
deriving Repr

/-- Processing of one output tensor inside `Session::run`: get the type
and shape info, read the dimensions with `get_tensor_dimensions`, convert
each `i64` dimension with `as usize`, and extract the owned tensor. -/
def processOutput (o : OutputOracle) : Except OrtError OrtOwnedTensor :=
  match status_to_result o.type_shape_status with
  | Except.error e => Except.error (OrtError.GetTensorTypeAndShape e)
  | Except.ok () =>
    match get_tensor_dimensions o.tensor_info with
    | Except.error e => Except.error e
    | Except.ok dims =>
      match o.extract_result with
      | Except.error e => Except.error e
      | Except.ok () => Except.ok ⟨dims.map i64_as_usize⟩

/-- Oracle for one `Session::run` invocation: the per-input results of
`OrtTensor::from_array` (in `tensor/ort_tensor.rs`, not under
verification, so oracled at its `Result` value, the tensor's `c_ptr`),
the status of the native `Run`, and the per-output processing oracles. -/
structure RunOracle where
  from_array : Nat → Except OrtError Ptr
  run_status : OrtStatus
  output : Nat → OutputOracle

/-- `Session::run` from `session.rs`.  The input arrays enter the
validation only through `.shape()` and enter the native calls only
through `OrtTensor::from_array`, so the embedding takes the shapes and
oracles `from_array`.  The name marshalling (`CString::new`...`into_raw`)
is pure and cannot fail (model input/output names contain no interior NUL
— `CString::new(n).unwrap()`), and the final `CString::from_raw`
reconversion succeeds because `into_raw` never returns null, so the
result after the output loop is the collected outputs. -/
def Session.run (s : Session) (input_shapes : List (List Nat))
    (o : RunOracle) : List NativeCall × Except OrtError (List OrtOwnedTensor) :=
  match s.validate_input_shapes input_shapes with
  | Except.error e => ([], Except.error e)
  | Except.ok () =>
    match collectResult ((List.range input_shapes.length).map o.from_array) with
    | Except.error e => ([], Except.error e)
    | Except.ok _input_ort_values =>
      match status_to_result o.run_status with
      | Except.error e =>
        ([NativeCall.Run s.session_ptr], Except.error (OrtError.Run e))
      | Except.ok () =>
        ([NativeCall.Run s.session_ptr],
          collectResult ((List.range s.outputs.length).map
            (fun i => processOutput (o.output i))))

/-- `impl Drop for Session` from `session.rs`: release the native session
iff the pointer is non-null, then null both pointers. -/
def Session.drop (s : Session) : List NativeCall × Session :=
  ((if s.session_ptr = Ptr.null then [] else [NativeCall.ReleaseSession s.session_ptr]),
    { s with session_ptr := Ptr.null, allocator_ptr := Ptr.null })

/-- `impl Drop for SessionBuilder` from `session.rs`: release the native
session options iff the pointer is non-null. -/
def SessionBuilder.drop (b : SessionBuilder) : List NativeCall :=
  if b.session_options_ptr = Ptr.null then []
  else [NativeCall.ReleaseSessionOptions b.session_options_ptr]

/-- `SessionBuilder::with_allocator` from `session.rs`. -/
def SessionBuilder.with_allocator (b : SessionBuilder)
    (allocator : AllocatorType) : Except OrtError SessionBuilder :=
  Except.ok { b with allocator := allocator }

/-- `SessionBuilder::with_memory_type` from `session.rs`. -/
def SessionBuilder.with_memory_type (b : SessionBuilder)
    (memory_type : MemType) : Except OrtError SessionBuilder :=
  Except.ok { b with memory_type := memory_type }

/-- `SessionBuilder::with_number_threads` from `session.rs`: cast the
`i16` argument to `i32` (`num_threads as i32`), pass it to the native
`SetIntraOpNumThreads`, and translate the status. -/
def SessionBuilder.with_number_threads (b : SessionBuilder)
    (num_threads : Int) (status : OrtStatus) :
    List NativeCall × Except OrtError SessionBuilder :=
  let n32 := i16_as_i32 num_threads
  ([NativeCall.SetIntraOpNumThreads b.session_options_ptr n32],
    match status_to_result status with
    | Except.error e => Except.error (OrtError.SessionOptions e)
    | Except.ok () =>
      match assert_null_pointer status "SessionStatus" with
      | Except.error e => Except.error e
      | Except.ok () => Except.ok b)

/-- A successful `collect::<Result<Vec<_>>>()` yields as many values as
there were results. -/
theorem collectResult_ok_length {ε α : Type} (xs : List (Except ε α))
    (l : List α) (h : collectResult xs = Except.ok l) : l.length = xs.length := by
  induction xs generalizing l with
  | nil =>
    unfold collectResult at h
    cases h
    rfl
  | cons x xs ih =>
    unfold collectResult at h
    cases x with
    | error e => cases h
    | ok a =>
      cases hr : collectResult xs with
      | error e => rw [hr] at h; cases h
      | ok as1 =>
        rw [hr] at h
        cases h
        simp [ih as1 hr]

/-- A failing `collect::<Result<Vec<_>>>()` returns an error that occurs
among the collected results. -/
theorem collectResult_error_mem {ε α : Type} (xs : List (Except ε α))
    (e : ε) (h : collectResult xs = Except.error e) : Except.error e ∈ xs := by
  induction xs with
  | nil => cases h
  | cons x xs ih =>
    unfold collectResult at h
    cases x with
    | error e1 =>
      cases h
      exact List.mem_cons_self _ _
    | ok a =>
      cases hr : collectResult xs with
      | error e1 =>
        rw [hr] at h
        cases h
        exact List.mem_cons_of_mem _ (ih hr)
      | ok as1 => rw [hr] at h; cases h

/-- `collect::<Result<Vec<_>>>()` stops at the first error: if every
earlier result succeeds and position `i` fails with `e`, the collected
result is `Except.error e`. -/
theorem collectResult_first_error {ε α : Type} (xs : List (Except ε α))
    (i : Nat) (e : ε) (hlt : i < xs.length)
    (hpre : ∀ j, j < i → ∃ a, xs.getD j (Except.error e) = Except.ok a)
    (hi : xs.getD i (Except.error e) = Except.error e) :
    collectResult xs = Except.error e := by
  induction xs generalizing i with
  | nil => simp at hlt
  | cons x xs ih =>
    cases i with
    | zero =>
      simp at hi
      unfold collectResult
      rw [hi]
    | succ i =>
      obtain ⟨a, ha⟩ := hpre 0 (Nat.succ_pos i)
      simp at ha
      unfold collectResult
      rw [ha]
      have hrec : collectResult xs = Except.error e := by
        apply ih i
        · simpa using hlt
        · intro j hj
          have := hpre (j + 1) (Nat.succ_lt_succ hj)
          simpa using this
        · simpa using hi
      rw [hrec]

/-- `validate_input_shapes` succeeds exactly when the spec-side matching
predicate holds: counts equal, ranks equal, and every fixed model
dimension equals the corresponding array dimension. -/
theorem validate_input_shapes_ok_iff (s : Session) (shapes : List (List Nat)) :
    s.validate_input_shapes shapes = Except.ok () ↔
      matchesModel s.inputs shapes = true := by
  unfold Session.validate_input_shapes matchesModel
  by_cases h1 : shapes.length = s.inputs.length
  · simp only [h1, ne_eq, not_true_eq_false, if_false, Bool.and_eq_true,
      decide_eq_true_eq, true_and]
    by_cases h2 : (shapes.zip s.inputs).any
        (fun lr => lr.1.length ≠ lr.2.dimensions.length)
    · simp only [h2, if_true]
      constructor
      · intro h; cases h
      · intro hall
        exfalso
        simp only [List.any_eq_true, decide_eq_true_eq] at h2
        obtain ⟨lr, hmem, hne⟩ := h2
        rw [List.all_eq_true] at hall
        have := hall lr hmem
        simp only [Bool.and_eq_true, decide_eq_true_eq] at this
        exact hne this.1
    · simp only [h2, if_false]
      by_cases h3 : (shapes.zip s.inputs).any (fun lr =>
          (lr.1.zip lr.2.dimensions).any (fun p =>
            match p.2 with
            | some r3 => r3 ≠ p.1
            | none => false))
      · simp only [h3, if_true]
        constructor
        · intro h; cases h
        · intro hall
          exfalso
          simp only [List.any_eq_true] at h3
          obtain ⟨lr, hmem, hinner⟩ := h3
          rw [List.all_eq_true] at hall
          have := hall lr hmem
          simp only [Bool.and_eq_true, decide_eq_true_eq, List.all_eq_true] at this
          obtain ⟨p, hpmem, hp⟩ := hinner
          have hok := this.2 p hpmem
          cases hq : p.2 with
          | none => rw [hq] at hp; cases hp
          | some d =>
            rw [hq] at hp hok
            simp only [decide_eq_true_eq] at hp hok
            exact hp hok.symm
      · simp only [h3, if_false]
        constructor
        · intro _
          rw [List.all_eq_true]
          intro lr hmem
          simp only [Bool.and_eq_true, decide_eq_true_eq, List.all_eq_true]
          constructor
          · by_contra hne
            exact h2 (List.any_eq_true.mpr ⟨lr, hmem, by simpa using hne⟩)
          · intro p hpmem
            cases hq : p.2 with
            | none => simp
            | some d =>
              simp only [decide_eq_true_eq]
              by_contra hne
              apply h3
              rw [List.any_eq_true]
              refine ⟨lr, hmem, ?_⟩
              rw [List.any_eq_true]
              refine ⟨p, hpmem, ?_⟩
              rw [hq]
              simp only [decide_eq_true_eq]
              intro hdl
              exact hne hdl.symm
        · intro _; rfl
  · simp only [h1, ne_eq, not_false_eq_true, if_true, Bool.and_eq_true,
      decide_eq_true_eq]
    constructor
    · intro h; cases h
    · intro h; exact h.1.elim

/-- `validate_input_shapes` either succeeds or fails with a
`NonMatchingDimensions` error: those are the only two outcomes. -/
theorem validate_input_shapes_cases (s : Session) (shapes : List (List Nat)) :
    s.validate_input_shapes shapes = Except.ok () ∨
      ∃ d, s.validate_input_shapes shapes =
        Except.error (OrtError.NonMatchingDimensions d) := by
  unfold Session.validate_input_shapes
  by_cases h1 : shapes.length = s.inputs.length
  · simp only [h1, ne_eq, not_true_eq_false, if_false]
    by_cases h2 : (shapes.zip s.inputs).any
        (fun lr => lr.1.length ≠ lr.2.dimensions.length)
    · simp only [h2, if_true]
      exact Or.inr ⟨_, rfl⟩
    · simp only [h2, if_false]
      by_cases h3 : (shapes.zip s.inputs).any (fun lr =>
          (lr.1.zip lr.2.dimensions).any (fun p =>
            match p.2 with
            | some r3 => r3 ≠ p.1
            | none => false))
      · simp only [h3, if_true]
        exact Or.inr ⟨_, rfl⟩
      · simp only [h3, if_false]
        exact Or.inl rfl
  · simp only [h1, ne_eq, not_false_eq_true, if_true]
    exact Or.inr ⟨_, rfl⟩

/-- A concrete session used to evaluate the embedding: one input of shape
`[1]` and one output of shape `[1]`. -/
def demoSession1 : Session :=
  ⟨Ptr.addr 1, Ptr.addr 2, ⟨Ptr.addr 3⟩,
    [⟨"data", TensorElementDataType.Float, [some 1]⟩],
    [⟨"out", TensorElementDataType.Float, [some 1]⟩]⟩

/-- A concrete builder used to evaluate the embedding. -/
def demoBuilder : SessionBuilder :=
  ⟨0, Ptr.addr 7, AllocatorType.Arena, MemType.Default⟩

/-- C2 (the code as written): when the number of input arrays (2) differs
from the model's input count (1), `validate_input_shapes` returns the
`InputsCount` error with `inference_input_count = 0` and
`model_input_count = 0` — the source hard-codes both count fields to `0`
instead of the actual counts — while the shape lists are reported. -/
theorem c2_inputs_count_fields_hardcoded_zero :
    demoSession1.validate_input_shapes [[1], [1]] =
      Except.error (OrtError.NonMatchingDimensions
        (NonMatchingDimensionsError.InputsCount 0 0 [[1], [1]] [[some 1]])) := by
  rfl

/-- C3: `with_model_from_file` on a path that does not name an existing
file returns `FileDoesNotExists` carrying that path and performs no
native call (the trace is empty, so no native session is created). -/
theorem c3_missing_file_no_native_call (b : SessionBuilder) (path : String)
    (o : LoadOracle) :
    b.with_model_from_file path false o =
      ([], Except.error (OrtError.FileDoesNotExists path)) := rfl

/-- C5: dropping a `Session` emits `ReleaseSession` exactly once when
`session_ptr` is non-null and never on a null pointer, emits nothing
else, and nulls both `session_ptr` and `allocator_ptr`; dropping a
`SessionBuilder` likewise emits `ReleaseSessionOptions` exactly once when
its options pointer is non-null, never on a null pointer, and nothing
else. -/
theorem c5_drop_releases_exactly_once (s : Session) (b : SessionBuilder) :
    ((s.drop).1.count (NativeCall.ReleaseSession s.session_ptr)
        = if s.session_ptr = Ptr.null then 0 else 1) ∧
    NativeCall.ReleaseSession Ptr.null ∉ (s.drop).1 ∧
    (∀ c ∈ (s.drop).1, c = NativeCall.ReleaseSession s.session_ptr) ∧
    (s.drop).2.session_ptr = Ptr.null ∧
    (s.drop).2.allocator_ptr = Ptr.null ∧
    (b.drop.count (NativeCall.ReleaseSessionOptions b.session_options_ptr)
        = if b.session_options_ptr = Ptr.null then 0 else 1) ∧
    NativeCall.ReleaseSessionOptions Ptr.null ∉ b.drop ∧
    (∀ c ∈ b.drop, c = NativeCall.ReleaseSessionOptions b.session_options_ptr) := by
  refine ⟨?_, ?_, ?_, rfl, rfl, ?_, ?_, ?_⟩
  · by_cases hs : s.session_ptr = Ptr.null <;>
      simp [Session.drop, hs, List.count_cons]
  · by_cases hs : s.session_ptr = Ptr.null <;> simp [Session.drop, hs]
    exact fun h => hs h.symm
  · by_cases hs : s.session_ptr = Ptr.null <;> simp [Session.drop, hs]
  · by_cases hb : b.session_options_ptr = Ptr.null <;>
      simp [SessionBuilder.drop, hb, List.count_cons]
  · by_cases hb : b.session_options_ptr = Ptr.null <;>
      simp [SessionBuilder.drop, hb]
    exact fun h => hb h.symm
  · by_cases hb : b.session_options_ptr = Ptr.null <;>
      simp [SessionBuilder.drop, hb]

/-- C5 witness: evaluating the drops on concrete values. -/
theorem c5_witness :
    (demoSession1.drop).1.count
      (NativeCall.ReleaseSession demoSession1.session_ptr) = 1 ∧
    (demoSession1.drop).2.session_ptr = Ptr.null ∧
    (demoSession1.drop).2.allocator_ptr = Ptr.null ∧
    demoBuilder.drop.count
      (NativeCall.ReleaseSessionOptions demoBuilder.session_options_ptr) = 1 := by
  have h := c5_drop_releases_exactly_once demoSession1 demoBuilder
  refine ⟨?_, h.2.2.2.1, h.2.2.2.2.1, ?_⟩
  · have h1 := h.1
    simpa [demoSession1] using h1
  · have h6 := h.2.2.2.2.2.1
    simpa [demoBuilder] using h6

/-- C6: `with_allocator` always returns `Ok` and changes only the
`allocator` field; `with_memory_type` always returns `Ok` and changes
only the `memory_type` field; `env` and `session_options_ptr` are
unchanged in both cases. -/
theorem c6_with_allocator_memory_type_frame (b : SessionBuilder)
    (a : AllocatorType) (m : MemType) :
    b.with_allocator a =
      Except.ok ⟨b.env, b.session_options_ptr, a, b.memory_type⟩ ∧
    b.with_memory_type m =
      Except.ok ⟨b.env, b.session_options_ptr, b.allocator, m⟩ :=
  ⟨rfl, rfl⟩

/-- C10: on the whole `i16` range the `as i32` cast is the identity
(sign extension), and `with_number_threads` forwards the value unchanged
to the native `SetIntraOpNumThreads` — negative counts included — and
returns `Ok` when the native status is null. -/
theorem c10_number_threads_sign_extends (b : SessionBuilder) (n : Int)
    (status : OrtStatus) (h1 : -(2 ^ 15) ≤ n) (h2 : n < 2 ^ 15) :
    i16_as_i32 n = n ∧
    (b.with_number_threads n status).1 =
      [NativeCall.SetIntraOpNumThreads b.session_options_ptr n] ∧
    (status = none →
      b.with_number_threads n status =
        ([NativeCall.SetIntraOpNumThreads b.session_options_ptr n],
          Except.ok b)) := by
  have hid : i16_as_i32 n = n := by
    unfold i16_as_i32
    omega
  refine ⟨hid, ?_, ?_⟩
  · unfold SessionBuilder.with_number_threads
    simp [hid]
  · intro hst
    subst hst
    unfold SessionBuilder.with_number_threads
    simp [hid, status_to_result, assert_null_pointer]

/-- C10 witness: the negative thread count `-5` is forwarded unchanged. -/
theorem c10_witness :
    i16_as_i32 (-5) = -5 ∧
    demoBuilder.with_number_threads (-5) none =
      ([NativeCall.SetIntraOpNumThreads demoBuilder.session_options_ptr (-5)],
        Except.ok demoBuilder) := by
  have h := c10_number_threads_sign_extends demoBuilder (-5) none
    (by decide) (by decide)
  exact ⟨h.1, h.2.2 rfl⟩

/-- Classifier: is this error a `NonMatchingDimensions`? -/
def isNonMatchingDimensions : OrtError → Bool
  | OrtError.NonMatchingDimensions _ => true
  | _ => false

/-- Classifier on a `run` result: did it fail with
`NonMatchingDimensions`? -/
def isNonMatchingError : Except OrtError (List OrtOwnedTensor) → Bool
  | Except.error e => isNonMatchingDimensions e
  | Except.ok _ => false

/-- A run oracle in which every native call succeeds; the single output
tensor has one dimension of extent 1. -/
def demoRunOracle : RunOracle :=
  ⟨fun _ => Except.ok (Ptr.addr 10), none,
    fun _ => ⟨none, ⟨none, 1, none, [1]⟩, Except.ok ()⟩⟩

/-- C1: `Session::run` invokes the native `Run` only when the input
shapes match the model (equal counts, equal ranks, and agreement on every
fixed dimension, with dynamic dimensions matching anything); in every
other case it performs no native call and returns a
`NonMatchingDimensions` error. -/
theorem c1_run_native_only_on_matching_shapes (s : Session)
    (shapes : List (List Nat)) (o : RunOracle) :
    (NativeCall.Run s.session_ptr ∈ (s.run shapes o).1 →
      matchesModel s.inputs shapes = true) ∧
    (matchesModel s.inputs shapes = false →
      (s.run shapes o).1 = [] ∧
        isNonMatchingError (s.run shapes o).2 = true) := by
  constructor
  · intro hmem
    rcases validate_input_shapes_cases s shapes with hok | ⟨d, herr⟩
    · exact (validate_input_shapes_ok_iff s shapes).mp hok
    · exfalso
      unfold Session.run at hmem
      rw [herr] at hmem
      simp at hmem
  · intro hf
    rcases validate_input_shapes_cases s shapes with hok | ⟨d, herr⟩
    · rw [validate_input_shapes_ok_iff s shapes] at hok
      rw [hok] at hf
      cases hf
    · unfold Session.run
      rw [herr]
      exact ⟨rfl, rfl⟩

/-- C1 witness: with a model input of fixed shape `[1]`, a `[2]`-shaped
input is rejected with no native call, and a `[1]`-shaped input passes
the matching predicate (the native `Run` is reached). -/
theorem c1_witness :
    ((demoSession1.run [[2]] demoRunOracle).1 = [] ∧
      isNonMatchingError (demoSession1.run [[2]] demoRunOracle).2 = true) ∧
    matchesModel demoSession1.inputs [[1]] = true := by
  constructor
  · exact (c1_run_native_only_on_matching_shapes demoSession1 [[2]]
      demoRunOracle).2 (by rfl)
  · exact (c1_run_native_only_on_matching_shapes demoSession1 [[1]]
      demoRunOracle).1 (by decide)

/-- A successful `get_tensor_dimensions` returns exactly the dimensions
the native `GetDimensions` wrote. -/
theorem get_tensor_dimensions_ok (info : TensorInfo) (l : List Int)
    (h : get_tensor_dimensions info = Except.ok l) : l = info.node_dims := by
  unfold get_tensor_dimensions at h
  cases h1 : info.dims_count_status <;> simp [h1, status_to_result] at h
  by_cases h2 : info.num_dims = 0
  · simp [h2] at h
  · simp [h2] at h
    cases h3 : info.dims_status <;> simp [h3, status_to_result] at h
    exact h.symm

/-- A successful `extract_io` returns the oracle's element type, and the
dimensions are obtained from the native `i64` list by the `-1 ↦ none`,
`d ↦ some (d as u32)` encoding. -/
theorem extract_io_ok (o : TypeInfoOracle) (t : TensorElementDataType)
    (dims : List (Option Nat)) (h : extract_io o = Except.ok (t, dims)) :
    t = o.elem_type ∧
    dims = o.tensor_info.node_dims.map
      (fun d => if d = -1 then none else some (i64_as_u32 d)) := by
  unfold extract_io at h
  cases h1 : o.typeinfo_status <;> simp [h1, status_to_result] at h
  cases h2 : o.typeinfo_ptr <;> simp [h2, assert_not_null_pointer] at h
  cases h3 : o.cast_status <;> simp [h3, status_to_result] at h
  cases h4 : o.tensor_info_ptr <;> simp [h4, assert_not_null_pointer] at h
  cases h5 : o.elem_type_status <;> simp [h5, status_to_result] at h
  by_cases h6 : o.elem_type = TensorElementDataType.Undefined
  · simp [h6] at h
  · simp [h6] at h
    cases h7 : get_tensor_dimensions o.tensor_info <;> simp [h7] at h
    rw [← get_tensor_dimensions_ok o.tensor_info _ h7]
    exact ⟨h.1.symm, h.2.symm⟩

/-- C7: on success, `extract_io` encodes the native dimension list
position by position — `none` exactly for the native value `-1`,
`some (d as u32)` for every other value `d` — preserving its order and
length. -/
theorem c7_dimension_encoding (o : TypeInfoOracle) (t : TensorElementDataType)
    (dims : List (Option Nat)) (h : extract_io o = Except.ok (t, dims)) :
    dims.length = o.tensor_info.node_dims.length ∧
    ∀ i : Nat, dims[i]? = (o.tensor_info.node_dims[i]?).map
      (fun d => if d = -1 then none else some (i64_as_u32 d)) := by
  obtain ⟨-, hdims⟩ := extract_io_ok o t dims h
  subst hdims
  refine ⟨by simp, ?_⟩
  intro i
  simp [List.getElem?_map]

/-- A type-info oracle where every native call succeeds and the tensor
has native dimensions `[-1, 5]`. -/
def demoTypeInfoOracle : TypeInfoOracle :=
  ⟨none, Ptr.addr 20, none, Ptr.addr 21, none,
    TensorElementDataType.Float, ⟨none, 2, none, [-1, 5]⟩⟩

/-- C7 witness: the native dimensions `[-1, 5]` are encoded as
`[none, some 5]`. -/
theorem c7_witness :
    ([none, some (5 : Nat)] : List (Option Nat)).length =
      demoTypeInfoOracle.tensor_info.node_dims.length ∧
    [none, some (5 : Nat)][0]? =
      (demoTypeInfoOracle.tensor_info.node_dims[0]?).map
        (fun d => if d = -1 then none else some (i64_as_u32 d)) ∧
    [none, some (5 : Nat)][1]? =
      (demoTypeInfoOracle.tensor_info.node_dims[1]?).map
        (fun d => if d = -1 then none else some (i64_as_u32 d)) := by
  have h := c7_dimension_encoding demoTypeInfoOracle
    TensorElementDataType.Float [none, some 5] (by rfl)
  exact ⟨h.1, h.2 0, h.2 1⟩

/-- `run` evaluation: a failing shape validation short-circuits with no
native call. -/
theorem run_validate_error (s : Session) (shapes : List (List Nat))
    (o : RunOracle) (e : OrtError)
    (h : s.validate_input_shapes shapes = Except.error e) :
    s.run shapes o = ([], Except.error e) := by
  unfold Session.run
  rw [h]

/-- `run` evaluation: a failing `from_array` conversion short-circuits
before the native `Run`. -/
theorem run_from_array_error (s : Session) (shapes : List (List Nat))
    (o : RunOracle) (e : OrtError)
    (hok : s.validate_input_shapes shapes = Except.ok ())
    (hc : collectResult ((List.range shapes.length).map o.from_array) =
      Except.error e) :
    s.run shapes o = ([], Except.error e) := by
  unfold Session.run
  rw [hok, hc]

/-- `run` evaluation: a non-null native `Run` status yields
`Err(OrtError::Run(..))`. -/
theorem run_status_error (s : Session) (shapes : List (List Nat))
    (o : RunOracle) (vals : List Ptr) (m : String)
    (hok : s.validate_input_shapes shapes = Except.ok ())
    (hc : collectResult ((List.range shapes.length).map o.from_array) =
      Except.ok vals)
    (hst : o.run_status = some m) :
    s.run shapes o = ([NativeCall.Run s.session_ptr],
      Except.error (OrtError.Run (OrtApiError.Msg m))) := by
  unfold Session.run
  rw [hok, hc, hst]
  rfl

/-- `run` evaluation: a null native `Run` status proceeds to the output
loop. -/
theorem run_status_ok (s : Session) (shapes : List (List Nat))
    (o : RunOracle) (vals : List Ptr)
    (hok : s.validate_input_shapes shapes = Except.ok ())
    (hc : collectResult ((List.range shapes.length).map o.from_array) =
      Except.ok vals)
    (hst : o.run_status = none) :
    s.run shapes o = ([NativeCall.Run s.session_ptr],
      collectResult ((List.range s.outputs.length).map
        (fun i => processOutput (o.output i)))) := by
  unfold Session.run
  rw [hok, hc, hst]
  rfl

/-- `get_tensor_dimensions` never fails with the `Run` variant: its
errors are `GetDimensionsCount`, `InvalidDimensions` or `GetDimensions`. -/
theorem get_tensor_dimensions_error_not_run (info : TensorInfo)
    (e : OrtApiError) :
    get_tensor_dimensions info ≠ Except.error (OrtError.Run e) := by
  unfold get_tensor_dimensions
  cases h1 : info.dims_count_status <;> simp [h1, status_to_result]
  by_cases h2 : info.num_dims = 0 <;> simp [h2]
  cases h3 : info.dims_status <;> simp [h3, status_to_result]

/-- If processing one output tensor fails with `Run(..)`, the error can
only have come from the oracled tensor extraction — the calls
`processOutput` makes itself never produce a `Run` error. -/
theorem processOutput_run_error (oo : OutputOracle) (e : OrtApiError)
    (h : processOutput oo = Except.error (OrtError.Run e)) :
    oo.extract_result = Except.error (OrtError.Run e) := by
  unfold processOutput at h
  cases h1 : oo.type_shape_status <;> simp [h1, status_to_result] at h
  cases hg : get_tensor_dimensions oo.tensor_info with
  | error e1 =>
    simp [hg] at h
    rw [h] at hg
    exact absurd hg (get_tensor_dimensions_error_not_run oo.tensor_info e)
  | ok dims =>
    simp [hg] at h
    cases hx : oo.extract_result with
    | error e2 =>
      simp [hx] at h
      rw [h]
    | ok u =>
      cases u
      simp [hx] at h

/-- C4: a null native status lets execution continue and a non-null one
is translated into a typed error; in particular `Session::run` returns
`Err(OrtError::Run(..))` exactly when the native `Run` call was made and
returned a non-null status (given that the oracled `from_array` and
tensor-extraction steps report their own error variants, never `Run`,
as the real ones do). -/
theorem c4_run_error_iff_native_status (s : Session)
    (shapes : List (List Nat)) (o : RunOracle)
    (hfa : ∀ i : Nat, ∀ e : OrtApiError,
      o.from_array i ≠ Except.error (OrtError.Run e))
    (hex : ∀ i : Nat, ∀ e : OrtApiError,
      (o.output i).extract_result ≠ Except.error (OrtError.Run e)) :
    (∀ st : OrtStatus, status_to_result st = Except.ok () ↔ st = none) ∧
    ((∃ e, (s.run shapes o).2 = Except.error (OrtError.Run e)) ↔
      (NativeCall.Run s.session_ptr ∈ (s.run shapes o).1 ∧
        o.run_status ≠ none)) := by
  constructor
  · intro st
    cases st <;> simp [status_to_result]
  · rcases validate_input_shapes_cases s shapes with hok | ⟨d, herr⟩
    · cases hc : collectResult ((List.range shapes.length).map o.from_array) with
      | error e =>
        rw [run_from_array_error s shapes o e hok hc]
        constructor
        · rintro ⟨e1, he1⟩
          simp only [Except.error.injEq] at he1
          exfalso
          have hmem := collectResult_error_mem _ e hc
          rw [List.mem_map] at hmem
          obtain ⟨i, -, hi⟩ := hmem
          exact hfa i e1 (by rw [hi, he1])
        · rintro ⟨hmem, -⟩
          simp at hmem
      | ok vals =>
        cases hst : o.run_status with
        | some m =>
          rw [run_status_error s shapes o vals m hok hc hst]
          simp [hst]
        | none =>
          rw [run_status_ok s shapes o vals hok hc hst]
          constructor
          · rintro ⟨e1, he1⟩
            simp only at he1
            exfalso
            have hmem := collectResult_error_mem _ _ he1
            rw [List.mem_map] at hmem
            obtain ⟨i, -, hi⟩ := hmem
            exact hex i e1 (processOutput_run_error (o.output i) e1 hi)
          · rintro ⟨-, hne⟩
            exact absurd rfl hne
    · rw [run_validate_error s shapes o _ herr]
      constructor
      · rintro ⟨e1, he1⟩
        simp at he1
      · rintro ⟨hmem, -⟩
        simp at hmem

/-- A run oracle whose native `Run` fails with status message "fail". -/
def demoFailRunOracle : RunOracle :=
  ⟨fun _ => Except.ok (Ptr.addr 10), some "fail",
    fun _ => ⟨none, ⟨none, 1, none, [1]⟩, Except.ok ()⟩⟩

/-- C4 witness: with matching shapes and a failing native `Run`, the
`Run` call appears in the trace. -/
theorem c4_witness :
    NativeCall.Run demoSession1.session_ptr ∈
      (demoSession1.run [[1]] demoFailRunOracle).1 := by
  have h := c4_run_error_iff_native_status demoSession1 [[1]] demoFailRunOracle
    (fun i e he => Except.noConfusion he)
    (fun i e he => Except.noConfusion he)
  exact (h.2.mp ⟨OrtApiError.Msg "fail", by rfl⟩).1

/-- A successful `extract_io_count` returns the native count, which is
necessarily non-zero. -/
theorem extract_io_count_ok (o : IoCountOracle) (n : Nat)
    (h : extract_io_count o = Except.ok n) : n = o.count ∧ n ≠ 0 := by
  unfold extract_io_count at h
  cases h1 : o.status <;>
    simp [h1, status_to_result, assert_null_pointer] at h
  by_cases h2 : o.count = 0
  · simp [h2] at h
  · simp [h2] at h
    exact ⟨h.symm, fun hn => h2 (h.trans hn)⟩

/-- A zero native node count makes `extract_io_count` fail with the
`"No nodes in model"` message. -/
theorem extract_io_count_zero (o : IoCountOracle) (hs : o.status = none)
    (hc : o.count = 0) :
    extract_io_count o =
      Except.error (OrtError.InOutCount (OrtApiError.Msg "No nodes in model")) := by
  unfold extract_io_count
  simp [hs, hc, status_to_result, assert_null_pointer]

/-- A non-zero native node count (with a null status) makes
`extract_io_count` succeed with that count. -/
theorem extract_io_count_nonzero (o : IoCountOracle) (hs : o.status = none)
    (hc : o.count ≠ 0) : extract_io_count o = Except.ok o.count := by
  unfold extract_io_count
  simp [hs, hc, status_to_result, assert_null_pointer]

/-- Any session produced by the shared creation tail has as many inputs
and outputs as the (necessarily non-zero) native counts: both lists are
non-empty. -/
theorem commit_session_ok (o : LoadOracle) (s : Session)
    (h : commit_session o = Except.ok s) :
    s.inputs ≠ [] ∧ s.outputs ≠ [] := by
  unfold commit_session at h
  cases h1 : o.create_status <;>
    simp [h1, status_to_result, assert_null_pointer] at h
  cases h2 : o.session_ptr <;> simp [h2, assert_not_null_pointer] at h
  cases h3 : o.allocator_status <;>
    simp [h3, status_to_result, assert_null_pointer] at h
  cases h4 : o.allocator_ptr <;> simp [h4, assert_not_null_pointer] at h
  cases h5 : o.memory_info_result with
  | error e => simp [h5] at h
  | ok mi =>
    simp [h5] at h
    cases h6 : extract_io_count o.input_count with
    | error e => simp [h6] at h
    | ok nin =>
      simp [h6] at h
      cases h7 : extract_io_count o.output_count with
      | error e => simp [h7] at h
      | ok nout =>
        simp [h7] at h
        cases h8 : collectResult ((List.range nin).map
            (fun i => extract_input (o.input_at i))) with
        | error e => simp [h8] at h
        | ok inputs =>
          simp [h8] at h
          cases h9 : collectResult ((List.range nout).map
              (fun i => extract_output (o.output_at i))) with
          | error e => simp [h9] at h
          | ok outputs =>
            simp [h9] at h
            have hlin := collectResult_ok_length _ _ h8
            have hlout := collectResult_ok_length _ _ h9
            simp at hlin hlout
            rw [← h]
            constructor
            · intro hnil
              have hnil1 : inputs = [] := hnil
              rw [hnil1] at hlin
              exact (extract_io_count_ok _ _ h6).2 hlin.symm
            · intro hnil
              have hnil1 : outputs = [] := hnil
              rw [hnil1] at hlout
              exact (extract_io_count_ok _ _ h7).2 hlout.symm

/-- C8: every `Session` successfully returned by `with_model_from_file`
or `with_model_from_memory` has non-empty `inputs` and `outputs`; a zero
native input or output count makes construction fail with
`InOutCount(Msg "No nodes in model")`. -/
theorem c8_loaded_sessions_have_io (b : SessionBuilder) (path : String)
    (fe : Bool) (o : LoadOracle) (tr : List NativeCall) (s : Session) :
    (b.with_model_from_file path fe o = (tr, Except.ok s) →
      s.inputs ≠ [] ∧ s.outputs ≠ []) ∧
    (b.with_model_from_memory o = (tr, Except.ok s) →
      s.inputs ≠ [] ∧ s.outputs ≠ []) ∧
    (o.input_count.status = none → o.input_count.count = 0 →
      extract_io_count o.input_count =
        Except.error (OrtError.InOutCount (OrtApiError.Msg "No nodes in model"))) ∧
    (o.output_count.status = none → o.output_count.count = 0 →
      extract_io_count o.output_count =
        Except.error (OrtError.InOutCount (OrtApiError.Msg "No nodes in model"))) ∧
    (o.create_status = none → o.session_ptr ≠ Ptr.null →
      o.allocator_status = none → o.allocator_ptr ≠ Ptr.null →
      (∃ mi, o.memory_info_result = Except.ok mi) →
      o.input_count.status = none → o.input_count.count = 0 →
      commit_session o =
        Except.error (OrtError.InOutCount (OrtApiError.Msg "No nodes in model"))) := by
  refine ⟨?_, ?_, ?_, ?_, ?_⟩
  · intro h
    cases fe with
    | false => simp [SessionBuilder.with_model_from_file] at h
    | true =>
      exact commit_session_ok o s (congrArg Prod.snd h)
  · intro h
    exact commit_session_ok o s (congrArg Prod.snd h)
  · exact extract_io_count_zero o.input_count
  · exact extract_io_count_zero o.output_count
  · intro hcs hsp has hap hmi hics hicc
    obtain ⟨a1, hp1⟩ : ∃ a, o.session_ptr = Ptr.addr a := by
      cases hp : o.session_ptr
      · exact absurd hp hsp
      · exact ⟨_, rfl⟩
    obtain ⟨a2, hp2⟩ : ∃ a, o.allocator_ptr = Ptr.addr a := by
      cases hp : o.allocator_ptr
      · exact absurd hp hap
      · exact ⟨_, rfl⟩
    obtain ⟨mi, hmi'⟩ := hmi
    unfold commit_session
    simp [hcs, hp1, hp2, has, hmi', status_to_result, assert_null_pointer,
      assert_not_null_pointer, extract_io_count_zero o.input_count hics hicc]

/-- A load oracle in which every native call succeeds, with one input
and one output node. -/
def demoLoadOracle : LoadOracle :=
  ⟨none, Ptr.addr 30, none, Ptr.addr 31, Except.ok ⟨Ptr.addr 32⟩,
    ⟨none, 1⟩, ⟨none, 1⟩,
    fun _ => ⟨Except.ok "in0", demoTypeInfoOracle⟩,
    fun _ => ⟨Except.ok "out0", demoTypeInfoOracle⟩⟩

/-- The session `demoLoadOracle` commits to. -/
def demoLoadedSession : Session :=
  ⟨Ptr.addr 30, Ptr.addr 31, ⟨Ptr.addr 32⟩,
    [⟨"in0", TensorElementDataType.Float, [none, some 5]⟩],
    [⟨"out0", TensorElementDataType.Float, [none, some 5]⟩]⟩

/-- C8 witness: a concrete successful load has non-empty inputs and
outputs, and a zero count is rejected with the "No nodes in model"
message. -/
theorem c8_witness :
    demoLoadedSession.inputs ≠ [] ∧ demoLoadedSession.outputs ≠ [] ∧
    extract_io_count ⟨none, 0⟩ =
      Except.error (OrtError.InOutCount (OrtApiError.Msg "No nodes in model")) := by
  have h := c8_loaded_sessions_have_io demoBuilder "model.onnx" true
    demoLoadOracle [NativeCall.CreateSession demoBuilder.session_options_ptr]
    demoLoadedSession
  have h1 := h.1 (by rfl)
  have h2 := c8_loaded_sessions_have_io demoBuilder "model.onnx" true
    ⟨none, Ptr.addr 30, none, Ptr.addr 31, Except.ok ⟨Ptr.addr 32⟩,
      ⟨none, 0⟩, ⟨none, 1⟩,
      fun _ => ⟨Except.ok "in0", demoTypeInfoOracle⟩,
      fun _ => ⟨Except.ok "out0", demoTypeInfoOracle⟩⟩
    [] demoLoadedSession
  exact ⟨h1.1, h1.2, h2.2.2.1 rfl rfl⟩

/-- If every result in the list is a success, collecting succeeds. -/
theorem collectResult_ok_of_all {ε α : Type} (xs : List (Except ε α))
    (h : ∀ x ∈ xs, ∃ a, x = Except.ok a) :
    ∃ l, collectResult xs = Except.ok l := by
  induction xs with
  | nil => exact ⟨[], rfl⟩
  | cons x xs ih =>
    obtain ⟨a, ha⟩ := h x (List.mem_cons_self _ _)
    obtain ⟨l, hl⟩ := ih (fun y hy => h y (List.mem_cons_of_mem _ hy))
    refine ⟨a :: l, ?_⟩
    unfold collectResult
    rw [ha, hl]

/-- A zero-rank output tensor makes `processOutput` fail with
`InvalidDimensions` (through `get_tensor_dimensions`). -/
theorem processOutput_invalid (oo : OutputOracle)
    (h1 : oo.type_shape_status = none)
    (h2 : oo.tensor_info.dims_count_status = none)
    (h3 : oo.tensor_info.num_dims = 0) :
    processOutput oo = Except.error OrtError.InvalidDimensions := by
  unfold processOutput get_tensor_dimensions
  simp [h1, h2, h3, status_to_result]

/-- C9: a zero native dimension count makes `get_tensor_dimensions`
fail with `InvalidDimensions`; consequently `Session::run` fails with
that error when an output tensor is zero-rank (all steps before it
succeeding), `extract_io` fails with it when the metadata tensor of an
input or output is zero-rank, and session construction propagates that
failure. -/
theorem c9_zero_rank_invalid_dimensions (info : TensorInfo) (s : Session)
    (shapes : List (List Nat)) (o : RunOracle) (i : Nat)
    (to1 : TypeInfoOracle) (lo : LoadOracle) :
    (info.dims_count_status = none → info.num_dims = 0 →
      get_tensor_dimensions info = Except.error OrtError.InvalidDimensions) ∧
    (s.validate_input_shapes shapes = Except.ok () →
      (∀ j : Nat, ∃ p, o.from_array j = Except.ok p) →
      o.run_status = none →
      (∀ j : Nat, j < i → ∃ t, processOutput (o.output j) = Except.ok t) →
      i < s.outputs.length →
      (o.output i).type_shape_status = none →
      (o.output i).tensor_info.dims_count_status = none →
      (o.output i).tensor_info.num_dims = 0 →
      (s.run shapes o).2 = Except.error OrtError.InvalidDimensions) ∧
    (to1.typeinfo_status = none → to1.typeinfo_ptr ≠ Ptr.null →
      to1.cast_status = none → to1.tensor_info_ptr ≠ Ptr.null →
      to1.elem_type_status = none →
      to1.elem_type ≠ TensorElementDataType.Undefined →
      to1.tensor_info.dims_count_status = none →
      to1.tensor_info.num_dims = 0 →
      extract_io to1 = Except.error OrtError.InvalidDimensions) ∧
    (lo.create_status = none → lo.session_ptr ≠ Ptr.null →
      lo.allocator_status = none → lo.allocator_ptr ≠ Ptr.null →
      (∃ mi, lo.memory_info_result = Except.ok mi) →
      lo.input_count.status = none → lo.input_count.count ≠ 0 →
      lo.output_count.status = none → lo.output_count.count ≠ 0 →
      extract_input (lo.input_at 0) = Except.error OrtError.InvalidDimensions →
      commit_session lo = Except.error OrtError.InvalidDimensions) := by
  refine ⟨?_, ?_, ?_, ?_⟩
  · intro k1 k2
    unfold get_tensor_dimensions
    simp [k1, k2, status_to_result]
  · intro hval hfa hst hpre hi k1 k2 k3
    obtain ⟨vals, hc⟩ := collectResult_ok_of_all
      ((List.range shapes.length).map o.from_array) (by
        intro x hx
        rw [List.mem_map] at hx
        obtain ⟨j, -, hj⟩ := hx
        obtain ⟨p, hp⟩ := hfa j
        exact ⟨p, by rw [← hj, hp]⟩)
    rw [run_status_ok s shapes o vals hval hc hst]
    apply collectResult_first_error _ i
    · simpa using hi
    · intro j hj
      obtain ⟨t, ht⟩ := hpre j hj
      refine ⟨t, ?_⟩
      have hjlen : j < s.outputs.length := lt_trans hj hi
      simp [List.getD_eq_getElem?_getD, List.getElem?_map,
        List.getElem?_range, hjlen, ht]
    · have hout := processOutput_invalid (o.output i) k1 k2 k3
      simp [List.getD_eq_getElem?_getD, List.getElem?_map,
        List.getElem?_range, hi, hout]
  · intro k1 k2 k3 k4 k5 k6 k7 k8
    obtain ⟨a1, hp1⟩ : ∃ a, to1.typeinfo_ptr = Ptr.addr a := by
      cases hp : to1.typeinfo_ptr
      · exact absurd hp k2
      · exact ⟨_, rfl⟩
    obtain ⟨a2, hp2⟩ : ∃ a, to1.tensor_info_ptr = Ptr.addr a := by
      cases hp : to1.tensor_info_ptr
      · exact absurd hp k4
      · exact ⟨_, rfl⟩
    unfold extract_io get_tensor_dimensions
    simp [k1, k3, k5, k6, k7, k8, hp1, hp2, status_to_result,
      assert_not_null_pointer]
  · intro hcs hsp has hap hmi hics hicc hocs hocc hin0
    obtain ⟨a1, hp1⟩ : ∃ a, lo.session_ptr = Ptr.addr a := by
      cases hp : lo.session_ptr
      · exact absurd hp hsp
      · exact ⟨_, rfl⟩
    obtain ⟨a2, hp2⟩ : ∃ a, lo.allocator_ptr = Ptr.addr a := by
      cases hp : lo.allocator_ptr
      · exact absurd hp hap
      · exact ⟨_, rfl⟩
    obtain ⟨mi, hmi'⟩ := hmi
    have hpos : 0 < lo.input_count.count := Nat.pos_of_ne_zero hicc
    have hcol : collectResult ((List.range lo.input_count.count).map
        (fun j => extract_input (lo.input_at j))) =
        Except.error OrtError.InvalidDimensions := by
      apply collectResult_first_error _ 0
      · simpa using hpos
      · intro j hj
        exact absurd hj (Nat.not_lt_zero j)
      · simp [List.getD_eq_getElem?_getD, List.getElem?_map,
          List.getElem?_range, hpos, hin0]
    unfold commit_session
    simp [hcs, hp1, hp2, has, hmi', status_to_result, assert_null_pointer,
      assert_not_null_pointer,
      extract_io_count_nonzero lo.input_count hics hicc,
      extract_io_count_nonzero lo.output_count hocs hocc, hcol]

/-- A run oracle whose single output tensor is zero-rank. -/
def demoZeroRankRunOracle : RunOracle :=
  ⟨fun _ => Except.ok (Ptr.addr 10), none,
    fun _ => ⟨none, ⟨none, 0, none, []⟩, Except.ok ()⟩⟩

/-- A type-info oracle whose tensor is zero-rank. -/
def demoZeroTypeInfoOracle : TypeInfoOracle :=
  ⟨none, Ptr.addr 20, none, Ptr.addr 21, none,
    TensorElementDataType.Float, ⟨none, 0, none, []⟩⟩

/-- A load oracle whose single input node has zero-rank metadata. -/
def demoZeroRankLoadOracle : LoadOracle :=
  ⟨none, Ptr.addr 30, none, Ptr.addr 31, Except.ok ⟨Ptr.addr 32⟩,
    ⟨none, 1⟩, ⟨none, 1⟩,
    fun _ => ⟨Except.ok "in0", demoZeroTypeInfoOracle⟩,
    fun _ => ⟨Except.ok "out0", demoZeroTypeInfoOracle⟩⟩

/-- C9 witness: concrete zero-rank tensors are rejected with
`InvalidDimensions` in dimension reading, in `run`, in metadata
extraction and in session construction. -/
theorem c9_witness :
    get_tensor_dimensions ⟨none, 0, none, []⟩ =
      Except.error OrtError.InvalidDimensions ∧
    (demoSession1.run [[1]] demoZeroRankRunOracle).2 =
      Except.error OrtError.InvalidDimensions ∧
    extract_io demoZeroTypeInfoOracle =
      Except.error OrtError.InvalidDimensions ∧
    commit_session demoZeroRankLoadOracle =
      Except.error OrtError.InvalidDimensions := by
  have h := c9_zero_rank_invalid_dimensions ⟨none, 0, none, []⟩ demoSession1
    [[1]] demoZeroRankRunOracle 0 demoZeroTypeInfoOracle demoZeroRankLoadOracle
  refine ⟨h.1 rfl rfl, ?_, ?_, ?_⟩
  · exact h.2.1 (by rfl) (fun j => ⟨Ptr.addr 10, rfl⟩) rfl
      (fun j hj => absurd hj (Nat.not_lt_zero j)) (by decide) rfl rfl rfl
  · exact h.2.2.1 rfl (by simp [demoZeroTypeInfoOracle]) rfl
      (by simp [demoZeroTypeInfoOracle]) rfl (by decide) rfl rfl
  · exact h.2.2.2 rfl (by simp [demoZeroRankLoadOracle]) rfl
      (by simp [demoZeroRankLoadOracle]) ⟨⟨Ptr.addr 32⟩, rfl⟩ rfl
      (by decide) rfl (by decide) (by rfl)
